import Mathlib

/-!
Verification development for the aws-iot-device-sdk-go repository.

The `device` package (device.go) is embedded as pure Lean functions over an
abstract transport: every MQTT `Subscribe`, `Publish` and `Unsubscribe` call
is recorded in an action trace, and the outcome of each transport call
(`token.Wait(); token.Error()`) is supplied by a `Transport` oracle.  The
single `select` over the two private channels of a correlated request is
supplied as a `SelectEvent` (the first event that occurs on either sink).
The `credentials` package (credentials.go) is embedded the same way, with
the HTTP response and the external JSON decoder supplied as inputs.
-/

namespace AwsIot

/-- Device shadow data: an opaque byte sequence (Go `type Shadow []byte`).
Bytes are modelled as characters so that the Go conversion
`string(payload)` is `String.mk`. -/
abbrev Shadow := List Char

/-- Result of waiting on an MQTT token: `none` means `token.Error() == nil`,
`some e` means the token carries error `e`. -/
abbrev TokenError := Option String

/-- The transport oracle: for each topic (or topic list) it fixes the error
returned by the corresponding paho-mqtt token after `Wait()`. -/
structure Transport where
  subscribeResult : String → TokenError
  publishResult : String → TokenError
  unsubscribeResult : List String → TokenError

/-- One observable transport call made by the device layer. -/
inductive Action where
  | subscribe (topic : String)
  | publish (topic : String) (payload : Shadow)
  | unsubscribe (topics : List String)
  | closeChan
deriving DecidableEq, Repr

/-- Topic derivation for the fixed shadow operations: the code formats
every such topic as the literal `$aws/things/%s/shadow/` followed by the
operation suffix (`fmt.Sprintf` in device.go). -/
def shadowTopic (thingName suffix : String) : String :=
  "$aws/things/" ++ thingName ++ "/shadow/" ++ suffix

/-- The closed set of shadow-topic suffixes occurring in device.go. -/
def shadowSuffixes : List String :=
  ["get", "get/accepted", "get/rejected",
   "update", "update/accepted", "update/rejected", "update/documents",
   "delete", "delete/accepted", "delete/rejected"]

/-- The trigger payload `[]byte("\x7b\x7d")` (an empty JSON object)
published by GetThingShadow and DeleteThingShadow. -/
def emptyJsonPayload : Shadow := ['\x7b', '\x7d']

/-- The first event observed by the `select` over the two private channels
of a correlated request: a message on the accepted sink, a message on the
rejected sink, or one of the sinks found closed. -/
inductive SelectEvent where
  | acceptedMsg (payload : Shadow)
  | acceptedClosed
  | rejectedMsg (payload : Shadow)
  | rejectedClosed
deriving DecidableEq, Repr

/-- GetThingShadow (device.go): subscribes `get/accepted` and
`get/rejected`, publishes `\x7b\x7d` to `get`, and resolves on the first
event over its two private channels.  The deferred
`t.unsubscribe(accepted, rejected)` is registered before the first
subscribe, so it closes every trace.  Returns the Go pair
`(Shadow, error)` together with the trace of transport calls. -/
def GetThingShadow (t : Transport) (thingName : String) (ev : SelectEvent) :
    (Option Shadow × Option String) × List Action :=
  let accT := shadowTopic thingName "get/accepted"
  let rejT := shadowTopic thingName "get/rejected"
  let getT := shadowTopic thingName "get"
  let deferredUnsub := [Action.unsubscribe [accT, rejT]]
  match t.subscribeResult accT with
  | some e => ((none, some e), [Action.subscribe accT] ++ deferredUnsub)
  | none =>
    match t.subscribeResult rejT with
    | some e =>
        ((none, some e),
         [Action.subscribe accT, Action.subscribe rejT] ++ deferredUnsub)
    | none =>
      match t.publishResult getT with
      | some e =>
          ((none, some e),
           [Action.subscribe accT, Action.subscribe rejT,
            Action.publish getT emptyJsonPayload] ++ deferredUnsub)
      | none =>
        let res : Option Shadow × Option String :=
          match ev with
          | SelectEvent.acceptedMsg s => (some s, none)
          | SelectEvent.acceptedClosed =>
              (none, some "failed to read from shadow channel")
          | SelectEvent.rejectedMsg p => (none, some (String.mk p))
          | SelectEvent.rejectedClosed =>
              (none, some "failed to read from error channel")
        (res,
         [Action.subscribe accT, Action.subscribe rejT,
          Action.publish getT emptyJsonPayload] ++ deferredUnsub)

/-- DeleteThingShadow (device.go): same correlated-request shape as
GetThingShadow over the `delete` topics; the accepted payload is
discarded and only the error is returned. -/
def DeleteThingShadow (t : Transport) (thingName : String) (ev : SelectEvent) :
    Option String × List Action :=
  let accT := shadowTopic thingName "delete/accepted"
  let rejT := shadowTopic thingName "delete/rejected"
  let delT := shadowTopic thingName "delete"
  let deferredUnsub := [Action.unsubscribe [accT, rejT]]
  match t.subscribeResult accT with
  | some e => (some e, [Action.subscribe accT] ++ deferredUnsub)
  | none =>
    match t.subscribeResult rejT with
    | some e =>
        (some e,
         [Action.subscribe accT, Action.subscribe rejT] ++ deferredUnsub)
    | none =>
      match t.publishResult delT with
      | some e =>
          (some e,
           [Action.subscribe accT, Action.subscribe rejT,
            Action.publish delT emptyJsonPayload] ++ deferredUnsub)
      | none =>
        let res : Option String :=
          match ev with
          | SelectEvent.acceptedMsg _ => none
          | SelectEvent.acceptedClosed =>
              some "failed to read from shadow channel"
          | SelectEvent.rejectedMsg p => some (String.mk p)
          | SelectEvent.rejectedClosed =>
              some "failed to read from error channel"
        (res,
         [Action.subscribe accT, Action.subscribe rejT,
          Action.publish delT emptyJsonPayload] ++ deferredUnsub)

/-- A Go channel as created by the device layer.  Every sink in device.go
is created by `make(chan ...)` with no capacity argument, i.e. unbuffered,
and the code never executes `close` on any of them. -/
structure GoChan where
  capacity : Nat
  closed : Bool
deriving DecidableEq, Repr

/-- The channel produced by `make(chan Shadow)` / `make(chan error)`:
capacity 0 (unbuffered), not closed. -/
def mkShadowChan : GoChan := ⟨0, false⟩

/-- A delivered MQTT message (`mqtt.Message`): topic and `Payload()`. -/
structure Message where
  topic : String
  payload : Shadow
deriving DecidableEq, Repr

/-- A channel send `ch <- v`: the hand-off a delivery callback performs. -/
structure ChanSend where
  target : GoChan
  value : Shadow
deriving DecidableEq, Repr

/-- Go channel-send semantics: a send on channel `c` completes immediately
exactly when a receiver is already waiting or the buffer has free space;
on an unbuffered channel with no waiting receiver the sender blocks. -/
def sendCompletesImmediately (c : GoChan) (receiverReady : Bool) : Bool :=
  receiverReady || decide (0 < c.capacity)

/-- Go channel-receive semantics: a receive observes end-of-stream
(`ok = false`) only on a closed channel. -/
def recvObservesClosed (c : GoChan) : Bool := c.closed

/-- Go channel-receive semantics on an unbuffered channel: a receive
completes only when a sender is ready or the channel is closed. -/
def recvCompletes (c : GoChan) (senderReady : Bool) : Bool :=
  senderReady || c.closed

/-- The delivery callback SubscribeForThingShadowChanges registers on
`update/accepted` (device.go): `shadowChan <- msg.Payload()`, a channel
send of the payload, unchanged, into the accepted sink. -/
def updateAcceptedCallback (shadowChan : GoChan) (msg : Message) : ChanSend :=
  ⟨shadowChan, msg.payload⟩

/-- The delivery callback SubscribeForThingShadowChanges registers on
`update/rejected` (device.go): `shadowErrChan <- msg.Payload()`. -/
def updateRejectedCallback (shadowErrChan : GoChan) (msg : Message) : ChanSend :=
  ⟨shadowErrChan, msg.payload⟩

/-- The delivery callback SubscribeForCustomTopic registers
(device.go): `shadowChan <- msg.Payload()`. -/
def customTopicCallback (shadowChan : GoChan) (msg : Message) : ChanSend :=
  ⟨shadowChan, msg.payload⟩

/-- UpdateThingShadow (device.go): a single publish of the payload bytes to
the `update` topic; returns `token.Error()` after `token.Wait()`. -/
def UpdateThingShadow (t : Transport) (thingName : String) (payload : Shadow) :
    Option String × List Action :=
  let updT := shadowTopic thingName "update"
  (t.publishResult updT, [Action.publish updT payload])

/-- UpdateThingShadowDocument (device.go): a single publish of the payload
bytes to the `update/documents` topic. -/
def UpdateThingShadowDocument (t : Transport) (thingName : String)
    (payload : Shadow) : Option String × List Action :=
  let docT := shadowTopic thingName "update/documents"
  (t.publishResult docT, [Action.publish docT payload])

/-- SubscribeForThingShadowChanges (device.go): subscribes
`update/accepted` then `update/rejected`; on either subscribe failure it
returns `(nil, nil, err)` with no teardown of what was already acquired;
on success it returns the two freshly made unbuffered channels. -/
def SubscribeForThingShadowChanges (t : Transport) (thingName : String) :
    (Option GoChan × Option GoChan × Option String) × List Action :=
  let accT := shadowTopic thingName "update/accepted"
  let rejT := shadowTopic thingName "update/rejected"
  match t.subscribeResult accT with
  | some e => ((none, none, some e), [Action.subscribe accT])
  | none =>
    match t.subscribeResult rejT with
    | some e =>
        ((none, none, some e), [Action.subscribe accT, Action.subscribe rejT])
    | none =>
        ((some mkShadowChan, some mkShadowChan, none),
         [Action.subscribe accT, Action.subscribe rejT])

/-- Split a character list on `/` (the segment view `path.Clean` works
on): `a/b` gives `[a, b]`, a leading, trailing or doubled separator
contributes an empty segment. -/
def splitSlash : List Char → List Char → List (List Char)
  | [], acc => [acc.reverse]
  | c :: rest, acc =>
      if c = '/' then acc.reverse :: splitSlash rest []
      else splitSlash rest (c :: acc)

/-- Join segments with a single `/` between consecutive segments. -/
def joinSlash : List (List Char) → List Char
  | [] => []
  | [s] => s
  | s :: rest => s ++ '/' :: joinSlash rest

/-- One step of Go path.Clean over the path segments, processed against a
stack kept in reverse order (head is the most recent segment).  Modelled
from the Go standard library specification of `path.Clean`: empty and `.`
segments are dropped, `..` pops a poppable segment, is dropped at the
root of a rooted path, and is kept otherwise. -/
def cleanStep (rooted : Bool) (stack : List (List Char)) (seg : List Char) :
    List (List Char) :=
  if seg = [] || seg = ['.'] then stack
  else if seg = ['.', '.'] then
    match stack with
    | [] => if rooted then [] else [['.', '.']]
    | top :: rest => if top = ['.', '.'] then seg :: top :: rest else rest
  else seg :: stack

/-- Go `path.Clean`, modelled from the Go standard library documentation:
lexical normalization that collapses duplicate separators, removes
trailing separators, and resolves `.` and `..` segments; the empty path
cleans to `.`. -/
def pathClean (p : String) : String :=
  if p.data = [] then "."
  else
    let rooted := p.data.head? == some '/'
    let stack := (splitSlash p.data []).foldl (cleanStep rooted) []
    let body := joinSlash stack.reverse
    if rooted then
      (if body = [] then "/" else String.mk ('/' :: body))
    else
      (if body = [] then "." else String.mk body)

/-- Go `path.Join`, modelled from the Go standard library: concatenate the
elements with `/` (skipping elements while the buffer is still empty and
they are empty), return the empty string when every element is empty, and
otherwise return the `path.Clean` of the concatenation. -/
def pathJoin (elems : List String) : String :=
  let buf := elems.foldl
    (fun buf e =>
      if buf ≠ "" || e ≠ "" then
        (if buf ≠ "" then buf ++ "/" else buf) ++ e
      else buf) ""
  if buf = "" then "" else pathClean buf

/-- The topic used by the custom-topic operations (device.go):
`path.Join("$aws/things", t.thingName, topic)`. -/
def customTopic (thingName topic : String) : String :=
  pathJoin ["$aws/things", thingName, topic]

/-- PublishToCustomTopic (device.go): a single publish of the payload
bytes to the joined custom topic. -/
def PublishToCustomTopic (t : Transport) (thingName : String)
    (payload : Shadow) (topic : String) : Option String × List Action :=
  let fullT := customTopic thingName topic
  (t.publishResult fullT, [Action.publish fullT payload])

/-- SubscribeForCustomTopic (device.go): subscribes the joined custom
topic and, on success, returns the freshly made unbuffered channel. -/
def SubscribeForCustomTopic (t : Transport) (thingName : String)
    (topic : String) : (Option GoChan × Option String) × List Action :=
  let fullT := customTopic thingName topic
  match t.subscribeResult fullT with
  | some e => ((none, some e), [Action.subscribe fullT])
  | none => ((some mkShadowChan, none), [Action.subscribe fullT])

/-- UnsubscribeFromCustomTopic (device.go): `t.unsubscribe(path.Join(...))`,
a bare transport unsubscribe of the joined custom topic; the channel
previously returned by SubscribeForCustomTopic is not touched. -/
def UnsubscribeFromCustomTopic (t : Transport) (thingName : String)
    (topic : String) : Option String × List Action :=
  let fullT := customTopic thingName topic
  (t.unsubscribeResult [fullT], [Action.unsubscribe [fullT]])

/-- Interpretation of the spec sentence for custom topics: the components
`$aws/things`, the thing id and the caller-supplied suffix joined with `/`
and with duplicate separators collapsed (and nothing else changed). -/
def collapseDupSlashesAux : List Char → List Char
  | [] => []
  | [c] => [c]
  | c :: d :: rest =>
      if c = '/' && d = '/' then collapseDupSlashesAux (d :: rest)
      else c :: collapseDupSlashesAux (d :: rest)

/-- Collapse every run of consecutive `/` characters into a single `/`. -/
def collapseDupSlashes (s : String) : String :=
  String.mk (collapseDupSlashesAux s.data)

/-- The custom topic as the spec's words describe it: plain `/`-join of the
three components with duplicate separators removed. -/
def claimedCustomTopic (thingName topic : String) : String :=
  collapseDupSlashes ("$aws/things" ++ "/" ++ thingName ++ "/" ++ topic)

/-- The environment of NewThing (device.go): the outcomes of the three
external calls `tls.LoadX509KeyPair`, `ioutil.ReadFile` (CA bundle) and
`client.Connect` (`token.Error()` after `Wait()`). -/
structure ConnectEnv where
  certLoadErr : Option String
  caReadErr : Option String
  connectErr : Option String
deriving DecidableEq, Repr

/-- The session value NewThing builds on success. -/
structure Thing where
  clientId : String
  thingName : String
deriving DecidableEq, Repr

/-- NewThing (device.go).  The code assigns
`tlsCert, err := tls.LoadX509KeyPair(...)` and then
`caPem, err := ioutil.ReadFile(...)`: the second assignment overwrites
`err` before any check, so the certificate/key load error is never
examined; both `if err != nil` checks test the CA-read error (the second
one is dead, its operand already known nil).  The connect error is
checked.  The model mirrors exactly this flow. -/
def NewThing (env : ConnectEnv) (thingName : String) :
    Option Thing × Option String :=
  let err := env.caReadErr
  match err with
  | some e => (none, some e)
  | none =>
    match err with
    | some e => (none, some e)
    | none =>
      match env.connectErr with
      | some e => (none, some e)
      | none => (some ⟨thingName, thingName⟩, none)

end AwsIot

namespace Credentials

/-- The AWS credentials output data structure (credentials.go `Output`). -/
structure Output where
  accessKeyId : String
  secretAccessKey : String
  sessionToken : String
  expiration : String
deriving DecidableEq, Repr

/-- The credentials service (credentials.go `Service`): URL, thing name
and the loaded client TLS certificate (kept as an opaque handle). -/
structure Service where
  url : String
  thingName : String
  tlsCertId : Nat
deriving DecidableEq, Repr

/-- An HTTP request as built by GetCredentials. -/
structure HttpRequest where
  method : String
  url : String
  headers : List (String × String)
deriving DecidableEq, Repr

/-- The HTTP client configuration GetCredentials builds: TLS client
certificates presented for mutual TLS, and the client timeout in
seconds. -/
structure HttpClientConfig where
  tlsCertIds : List Nat
  timeoutSeconds : Nat
deriving DecidableEq, Repr

/-- An HTTP response: status code and body bytes. -/
structure HttpResponse where
  statusCode : Nat
  body : List Char
deriving DecidableEq, Repr

/-- The client GetCredentials constructs (credentials.go): transport with
`Certificates: [s.tlsCert]` and `Timeout: time.Second * 10`. -/
def credentialsClient (s : Service) : HttpClientConfig :=
  ⟨[s.tlsCertId], 10⟩

/-- The request GetCredentials constructs (credentials.go):
`http.NewRequest("GET", s.url, nil)` followed by
`req.Header.Add("x-amzn-iot-thingname", s.thingName)`. -/
def credentialsRequest (s : Service) : HttpRequest :=
  ⟨"GET", s.url, [("x-amzn-iot-thingname", s.thingName)]⟩

/-- GetCredentials (credentials.go), with the outcomes of the external
calls supplied as inputs: `http.NewRequest` error, `client.Do` result,
`ioutil.ReadAll` error on the non-200 branch, and the result of
`json.NewDecoder(resp.Body).Decode` (which yields the `credentials`
field of the decoded body on success).  Error strings mirror the
`fmt.Errorf` formats of the source. -/
def GetCredentials (newRequestErr : Option String)
    (doResult : Except String HttpResponse)
    (readBodyErr : Option String)
    (decodeResult : Except String Output) : Except String Output :=
  match newRequestErr with
  | some e => Except.error ("failed to create the credentials request: " ++ e)
  | none =>
    match doResult with
    | Except.error e =>
        Except.error ("failed to perform the GET credentials request: " ++ e)
    | Except.ok resp =>
      if resp.statusCode ≠ 200 then
        match readBodyErr with
        | some e => Except.error ("failed to parse the response body: " ++ e)
        | none =>
            Except.error
              ("the request has failed with the status code: "
                ++ toString resp.statusCode
                ++ "; message: " ++ String.mk resp.body)
      else
        match decodeResult with
        | Except.error e =>
            Except.error ("failed to parse credentials response body: " ++ e)
        | Except.ok out => Except.ok out

end Credentials

namespace AwsIot

/-- The topics a transport action touches. -/
def topicsOf : Action → List String
  | Action.subscribe topic => [topic]
  | Action.publish topic _ => [topic]
  | Action.unsubscribe topics => topics
  | Action.closeChan => []

/-- Every topic touched by the trace is a fixed shadow topic of the thing:
`$aws/things/<name>/shadow/<s>` with `s` in the closed suffix set. -/
def usesShadowTopics (name : String) (tr : List Action) : Bool :=
  tr.all fun a => (topicsOf a).all fun tp =>
    shadowSuffixes.any fun s => tp == shadowTopic name s

/-- A transport on which every subscribe, publish and unsubscribe
succeeds. -/
def tAllOk : Transport :=
  ⟨fun _ => none, fun _ => none, fun _ => none⟩

/-- A transport on which subscribing the get-accepted topic of thing `w`
fails and everything else succeeds. -/
def tGetAccFail : Transport :=
  ⟨fun topic =>
      if topic = shadowTopic "w" "get/accepted" then some "sub boom" else none,
   fun _ => none, fun _ => none⟩

/-- A transport on which subscribing the update-rejected topic of thing
`w` fails and everything else succeeds. -/
def tUpdRejFail : Transport :=
  ⟨fun topic =>
      if topic = shadowTopic "w" "update/rejected" then some "sub boom"
      else none,
   fun _ => none, fun _ => none⟩

/-- C1: in GetThingShadow and DeleteThingShadow, both outcome topics are
subscribed before the trigger is published, and a failure of either
subscribe is returned immediately: the trace then contains no publish
action. -/
theorem correlated_subscribesBeforePublish (t : Transport) (name : String)
    (ev : SelectEvent) (e : String) :
    ((t.subscribeResult (shadowTopic name "get/accepted") = some e →
        GetThingShadow t name ev =
          ((none, some e),
           [Action.subscribe (shadowTopic name "get/accepted"),
            Action.unsubscribe [shadowTopic name "get/accepted",
                                shadowTopic name "get/rejected"]]))
      ∧ (t.subscribeResult (shadowTopic name "get/accepted") = none →
         t.subscribeResult (shadowTopic name "get/rejected") = some e →
          GetThingShadow t name ev =
            ((none, some e),
             [Action.subscribe (shadowTopic name "get/accepted"),
              Action.subscribe (shadowTopic name "get/rejected"),
              Action.unsubscribe [shadowTopic name "get/accepted",
                                  shadowTopic name "get/rejected"]]))
      ∧ (t.subscribeResult (shadowTopic name "get/accepted") = none →
         t.subscribeResult (shadowTopic name "get/rejected") = none →
          (GetThingShadow t name ev).2 =
            [Action.subscribe (shadowTopic name "get/accepted"),
             Action.subscribe (shadowTopic name "get/rejected"),
             Action.publish (shadowTopic name "get") emptyJsonPayload,
             Action.unsubscribe [shadowTopic name "get/accepted",
                                 shadowTopic name "get/rejected"]]))
    ∧ ((t.subscribeResult (shadowTopic name "delete/accepted") = some e →
          DeleteThingShadow t name ev =
            (some e,
             [Action.subscribe (shadowTopic name "delete/accepted"),
              Action.unsubscribe [shadowTopic name "delete/accepted",
                                  shadowTopic name "delete/rejected"]]))
      ∧ (t.subscribeResult (shadowTopic name "delete/accepted") = none →
         t.subscribeResult (shadowTopic name "delete/rejected") = some e →
          DeleteThingShadow t name ev =
            (some e,
             [Action.subscribe (shadowTopic name "delete/accepted"),
              Action.subscribe (shadowTopic name "delete/rejected"),
              Action.unsubscribe [shadowTopic name "delete/accepted",
                                  shadowTopic name "delete/rejected"]]))
      ∧ (t.subscribeResult (shadowTopic name "delete/accepted") = none →
         t.subscribeResult (shadowTopic name "delete/rejected") = none →
          (DeleteThingShadow t name ev).2 =
            [Action.subscribe (shadowTopic name "delete/accepted"),
             Action.subscribe (shadowTopic name "delete/rejected"),
             Action.publish (shadowTopic name "delete") emptyJsonPayload,
             Action.unsubscribe [shadowTopic name "delete/accepted",
                                 shadowTopic name "delete/rejected"]])) := by
  refine ⟨⟨fun h1 => ?_, fun h1 h2 => ?_, fun h1 h2 => ?_⟩,
          fun h1 => ?_, fun h1 h2 => ?_, fun h1 h2 => ?_⟩ <;>
    first
      | simp [GetThingShadow, h1, h2]
      | simp [GetThingShadow, h1]
      | simp [DeleteThingShadow, h1, h2]
      | simp [DeleteThingShadow, h1]
  all_goals cases hp : t.publishResult (shadowTopic name "get") <;>
    try cases hp2 : t.publishResult (shadowTopic name "delete")
  all_goals simp_all

/-- Witness for C1: on a transport where subscribing the get-accepted
topic fails, GetThingShadow returns that failure with no publish. -/
theorem correlated_subscribesBeforePublish_witness :
    GetThingShadow tGetAccFail "w" SelectEvent.acceptedClosed =
      ((none, some "sub boom"),
       [Action.subscribe (shadowTopic "w" "get/accepted"),
        Action.unsubscribe [shadowTopic "w" "get/accepted",
                            shadowTopic "w" "get/rejected"]]) :=
  (correlated_subscribesBeforePublish tGetAccFail "w" SelectEvent.acceptedClosed
    "sub boom").1.1 (by decide)

/-- C2: every GetThingShadow and DeleteThingShadow trace ends with the
deferred unsubscribe of both outcome topics, whatever the transport
results and whichever sink event resolves the call: no outcome-topic
subscription survives a completed call. -/
theorem correlated_alwaysUnsubscribesBoth (t : Transport) (name : String)
    (ev : SelectEvent) :
    (GetThingShadow t name ev).2.getLast? =
      some (Action.unsubscribe [shadowTopic name "get/accepted",
                                shadowTopic name "get/rejected"])
    ∧ (DeleteThingShadow t name ev).2.getLast? =
      some (Action.unsubscribe [shadowTopic name "delete/accepted",
                                shadowTopic name "delete/rejected"]) := by
  constructor
  · cases h1 : t.subscribeResult (shadowTopic name "get/accepted") <;>
      cases h2 : t.subscribeResult (shadowTopic name "get/rejected") <;>
      cases h3 : t.publishResult (shadowTopic name "get") <;>
      cases ev <;>
      simp [GetThingShadow, h1, h2, h3, List.getLast?]
  · cases h1 : t.subscribeResult (shadowTopic name "delete/accepted") <;>
      cases h2 : t.subscribeResult (shadowTopic name "delete/rejected") <;>
      cases h3 : t.publishResult (shadowTopic name "delete") <;>
      cases ev <;>
      simp [DeleteThingShadow, h1, h2, h3, List.getLast?]

/-- C3: a correlated request resolves with first-wins semantics once the
two subscribes and the publish have succeeded: the accepted sink yields
the success payload, the rejected sink yields its raw bytes as the error
detail, and a closed sink yields the distinguished channel-closed
error. -/
theorem correlated_firstWins (t : Transport) (name : String) (p : Shadow)
    (hga : t.subscribeResult (shadowTopic name "get/accepted") = none)
    (hgr : t.subscribeResult (shadowTopic name "get/rejected") = none)
    (hgp : t.publishResult (shadowTopic name "get") = none)
    (hda : t.subscribeResult (shadowTopic name "delete/accepted") = none)
    (hdr : t.subscribeResult (shadowTopic name "delete/rejected") = none)
    (hdp : t.publishResult (shadowTopic name "delete") = none) :
    ((GetThingShadow t name (SelectEvent.acceptedMsg p)).1 = (some p, none)
      ∧ (GetThingShadow t name (SelectEvent.rejectedMsg p)).1 =
          (none, some (String.mk p))
      ∧ (GetThingShadow t name SelectEvent.acceptedClosed).1 =
          (none, some "failed to read from shadow channel")
      ∧ (GetThingShadow t name SelectEvent.rejectedClosed).1 =
          (none, some "failed to read from error channel"))
    ∧ ((DeleteThingShadow t name (SelectEvent.acceptedMsg p)).1 = none
      ∧ (DeleteThingShadow t name (SelectEvent.rejectedMsg p)).1 =
          some (String.mk p)
      ∧ (DeleteThingShadow t name SelectEvent.acceptedClosed).1 =
          some "failed to read from shadow channel"
      ∧ (DeleteThingShadow t name SelectEvent.rejectedClosed).1 =
          some "failed to read from error channel") := by
  refine ⟨⟨?_, ?_, ?_, ?_⟩, ?_, ?_, ?_, ?_⟩ <;>
    simp [GetThingShadow, DeleteThingShadow, hga, hgr, hgp, hda, hdr, hdp]

/-- Witness for C3: on an all-succeeding transport, each of the four sink
events resolves the call as the theorem states. -/
theorem correlated_firstWins_witness :
    ((GetThingShadow tAllOk "w" (SelectEvent.acceptedMsg ['o', 'k'])).1 =
        (some ['o', 'k'], none)
      ∧ (GetThingShadow tAllOk "w" (SelectEvent.rejectedMsg ['o', 'k'])).1 =
          (none, some (String.mk ['o', 'k']))
      ∧ (GetThingShadow tAllOk "w" SelectEvent.acceptedClosed).1 =
          (none, some "failed to read from shadow channel")
      ∧ (GetThingShadow tAllOk "w" SelectEvent.rejectedClosed).1 =
          (none, some "failed to read from error channel"))
    ∧ ((DeleteThingShadow tAllOk "w" (SelectEvent.acceptedMsg ['o', 'k'])).1 =
          none
      ∧ (DeleteThingShadow tAllOk "w" (SelectEvent.rejectedMsg ['o', 'k'])).1 =
          some (String.mk ['o', 'k'])
      ∧ (DeleteThingShadow tAllOk "w" SelectEvent.acceptedClosed).1 =
          some "failed to read from shadow channel"
      ∧ (DeleteThingShadow tAllOk "w" SelectEvent.rejectedClosed).1 =
          some "failed to read from error channel") :=
  correlated_firstWins tAllOk "w" ['o', 'k']
    rfl rfl rfl rfl rfl rfl

/-- C4: the code drops the certificate/key load failure.  When
`tls.LoadX509KeyPair` fails with any error `e` while the CA-bundle read
and the connect handshake succeed, NewThing returns a Thing and a nil
error instead of surfacing `e`: the `err` from the key-pair load is
overwritten by the CA-read assignment before any check examines it. -/
theorem newThing_ignores_certificateLoadFailure (e : String) :
    NewThing ⟨some e, none, none⟩ "w" = (some ⟨"w", "w"⟩, none) := rfl

/-- C5 counterexample: the custom topic is derived with Go path.Join,
whose cleaning step does more than removing duplicate separators: a `..`
segment in the suffix is resolved (escaping the thing prefix) and a
trailing separator is removed, so the derived topic differs from the
plain slash-join with duplicate separators collapsed. -/
theorem customTopic_differsFromPlainJoin :
    customTopic "w" "../x" ≠ claimedCustomTopic "w" "../x"
    ∧ customTopic "w" "a/" ≠ claimedCustomTopic "w" "a/" := by
  constructor <;> decide

/-- C5 amended: every topic used by the fixed shadow operations is
`$aws/things/<name>/shadow/<s>` with `s` in the closed suffix set
\x7bget, get/accepted, get/rejected, update, update/accepted,
update/rejected, update/documents, delete, delete/accepted,
delete/rejected\x7d, and every custom-topic operation derives its topic
as Go path.Join of `$aws/things`, the thing id and the caller-supplied
suffix: the components joined with `/` and normalized by path cleaning,
which collapses duplicate separators, drops trailing separators and
resolves dot and dot-dot segments. -/
theorem topics_deriveFromThingName (t : Transport) (name : String)
    (ev : SelectEvent) (p : Shadow) (topic : String) :
    usesShadowTopics name (GetThingShadow t name ev).2 = true
    ∧ usesShadowTopics name (DeleteThingShadow t name ev).2 = true
    ∧ usesShadowTopics name (UpdateThingShadow t name p).2 = true
    ∧ usesShadowTopics name (UpdateThingShadowDocument t name p).2 = true
    ∧ usesShadowTopics name (SubscribeForThingShadowChanges t name).2 = true
    ∧ (PublishToCustomTopic t name p topic).2 =
        [Action.publish (pathJoin ["$aws/things", name, topic]) p]
    ∧ (SubscribeForCustomTopic t name topic).2 =
        [Action.subscribe (pathJoin ["$aws/things", name, topic])]
    ∧ (UnsubscribeFromCustomTopic t name topic).2 =
        [Action.unsubscribe [pathJoin ["$aws/things", name, topic]]] := by
  refine ⟨?_, ?_, ?_, ?_, ?_, ?_, ?_, ?_⟩
  · cases h1 : t.subscribeResult (shadowTopic name "get/accepted") <;>
      cases h2 : t.subscribeResult (shadowTopic name "get/rejected") <;>
      cases h3 : t.publishResult (shadowTopic name "get") <;>
      simp [GetThingShadow, h1, h2, h3, usesShadowTopics, topicsOf,
            shadowSuffixes]
  · cases h1 : t.subscribeResult (shadowTopic name "delete/accepted") <;>
      cases h2 : t.subscribeResult (shadowTopic name "delete/rejected") <;>
      cases h3 : t.publishResult (shadowTopic name "delete") <;>
      simp [DeleteThingShadow, h1, h2, h3, usesShadowTopics, topicsOf,
            shadowSuffixes]
  · simp [UpdateThingShadow, usesShadowTopics, topicsOf, shadowSuffixes]
  · simp [UpdateThingShadowDocument, usesShadowTopics, topicsOf,
          shadowSuffixes]
  · cases h1 : t.subscribeResult (shadowTopic name "update/accepted") <;>
      cases h2 : t.subscribeResult (shadowTopic name "update/rejected") <;>
      simp [SubscribeForThingShadowChanges, h1, h2, usesShadowTopics,
            topicsOf, shadowSuffixes]
  · rfl
  · cases h1 : t.subscribeResult (pathJoin ["$aws/things", name, topic]) <;>
      simp [SubscribeForCustomTopic, customTopic, h1]
  · rfl

/-- Witness for C5 amended: concrete evaluation on an all-succeeding
transport for thing `w` and suffix `a//b`. -/
theorem topics_deriveFromThingName_witness :
    usesShadowTopics "w" (GetThingShadow tAllOk "w"
        SelectEvent.acceptedClosed).2 = true
    ∧ (PublishToCustomTopic tAllOk "w" ['x'] "a//b").2 =
        [Action.publish (pathJoin ["$aws/things", "w", "a//b"]) ['x']] := by
  have h := topics_deriveFromThingName tAllOk "w" SelectEvent.acceptedClosed
    ['x'] "a//b"
  exact ⟨h.1, h.2.2.2.2.2.1⟩

/-- C6: UpdateThingShadow publishes exactly the payload bytes to the
update topic and returns the publish-level token result, performing no
subscribe and no wait on the accepted stream; and the update-accepted
delivery callback hands the delivered payload into the sink unchanged. -/
theorem updateThingShadow_publishesExactBytes (t : Transport) (name : String)
    (p : Shadow) (ch : GoChan) (msg : Message) :
    UpdateThingShadow t name p =
      (t.publishResult (shadowTopic name "update"),
       [Action.publish (shadowTopic name "update") p])
    ∧ (updateAcceptedCallback ch msg).value = msg.payload
    ∧ (updateAcceptedCallback ch msg).target = ch
    ∧ (updateAcceptedCallback ch ⟨shadowTopic name "update/accepted", p⟩).value
        = p :=
  ⟨rfl, rfl, rfl, rfl⟩

/-- C7 counterexample: the delivery callbacks hand messages off with a
channel send on an unbuffered channel (`make(chan Shadow)` has capacity
0), so when no receiver is ready the hand-off does not complete
immediately: the callback blocks instead of returning. -/
theorem deliveryCallback_blocksWithoutReceiver :
    mkShadowChan.capacity = 0
    ∧ sendCompletesImmediately
        (customTopicCallback mkShadowChan
          ⟨"$aws/things/w/fancy", ['x']⟩).target false = false
    ∧ sendCompletesImmediately
        (updateAcceptedCallback mkShadowChan
          ⟨"$aws/things/w/shadow/update/accepted", ['x']⟩).target false
        = false := by
  exact ⟨rfl, rfl, rfl⟩

/-- C7 amended: every delivery callback registered by
SubscribeForThingShadowChanges and SubscribeForCustomTopic hands the
delivered payload unchanged into its destination sink with a channel
send; the sinks are unbuffered, so the hand-off completes immediately
exactly when a receiver is already waiting, and a caller who stops
draining a sink therefore blocks the callback on the transport's
dispatch context. -/
theorem deliveryCallbacks_blockingHandoff (ch : GoChan) (msg : Message)
    (r : Bool) (t : Transport) (name topic : String) :
    updateAcceptedCallback ch msg = ⟨ch, msg.payload⟩
    ∧ updateRejectedCallback ch msg = ⟨ch, msg.payload⟩
    ∧ customTopicCallback ch msg = ⟨ch, msg.payload⟩
    ∧ sendCompletesImmediately mkShadowChan r = r
    ∧ (((SubscribeForCustomTopic t name topic).1.1.all
          fun c => c == mkShadowChan) = true)
    ∧ (((SubscribeForThingShadowChanges t name).1.1.all
          fun c => c == mkShadowChan) = true) := by
  refine ⟨rfl, rfl, rfl, by simp [sendCompletesImmediately, mkShadowChan],
          ?_, ?_⟩
  · cases h1 : t.subscribeResult (pathJoin ["$aws/things", name, topic]) <;>
      simp [SubscribeForCustomTopic, customTopic, h1]
  · cases h1 : t.subscribeResult (shadowTopic name "update/accepted") <;>
      cases h2 : t.subscribeResult (shadowTopic name "update/rejected") <;>
      simp [SubscribeForThingShadowChanges, h1, h2]

/-- C9: when the update-accepted subscribe succeeds and the
update-rejected subscribe fails, SubscribeForThingShadowChanges returns
the error with both channels nil, and its trace shows the accepted
subscription acquired and never unsubscribed. -/
theorem subscribeForShadowChanges_rejectedSubFailureLeaks
    (t : Transport) (name : String) (e : String)
    (hacc : t.subscribeResult (shadowTopic name "update/accepted") = none)
    (hrej : t.subscribeResult (shadowTopic name "update/rejected") = some e) :
    SubscribeForThingShadowChanges t name =
      ((none, none, some e),
       [Action.subscribe (shadowTopic name "update/accepted"),
        Action.subscribe (shadowTopic name "update/rejected")]) := by
  simp [SubscribeForThingShadowChanges, hacc, hrej]

/-- Witness for C9: concrete evaluation on a transport where only the
update-rejected subscribe fails. -/
theorem subscribeForShadowChanges_rejectedSubFailure_witness :
    SubscribeForThingShadowChanges tUpdRejFail "w" =
      ((none, none, some "sub boom"),
       [Action.subscribe (shadowTopic "w" "update/accepted"),
        Action.subscribe (shadowTopic "w" "update/rejected")]) :=
  subscribeForShadowChanges_rejectedSubFailureLeaks tUpdRejFail "w"
    "sub boom" (by decide) (by decide)

/-- C10: no session operation ever emits a channel close: the correlated
requests unsubscribe without closing their sinks, the unsubscribe of a
custom topic leaves the subscription channel untouched, every channel
handed out is unclosed, and by Go receive semantics a receive on such a
channel blocks (when no sender is ready) rather than observing
end-of-stream. -/
theorem operations_neverCloseChannels (t : Transport) (name : String)
    (ev : SelectEvent) (p : Shadow) (topic : String) :
    Action.closeChan ∉ (GetThingShadow t name ev).2
    ∧ Action.closeChan ∉ (DeleteThingShadow t name ev).2
    ∧ Action.closeChan ∉ (UpdateThingShadow t name p).2
    ∧ Action.closeChan ∉ (SubscribeForThingShadowChanges t name).2
    ∧ Action.closeChan ∉ (SubscribeForCustomTopic t name topic).2
    ∧ Action.closeChan ∉ (UnsubscribeFromCustomTopic t name topic).2
    ∧ (((SubscribeForCustomTopic t name topic).1.1.all
          fun c => !c.closed) = true)
    ∧ recvObservesClosed mkShadowChan = false
    ∧ recvCompletes mkShadowChan false = false := by
  refine ⟨?_, ?_, ?_, ?_, ?_, ?_, ?_, rfl, rfl⟩
  · cases h1 : t.subscribeResult (shadowTopic name "get/accepted") <;>
      cases h2 : t.subscribeResult (shadowTopic name "get/rejected") <;>
      cases h3 : t.publishResult (shadowTopic name "get") <;>
      simp [GetThingShadow, h1, h2, h3]
  · cases h1 : t.subscribeResult (shadowTopic name "delete/accepted") <;>
      cases h2 : t.subscribeResult (shadowTopic name "delete/rejected") <;>
      cases h3 : t.publishResult (shadowTopic name "delete") <;>
      simp [DeleteThingShadow, h1, h2, h3]
  · simp [UpdateThingShadow]
  · cases h1 : t.subscribeResult (shadowTopic name "update/accepted") <;>
      cases h2 : t.subscribeResult (shadowTopic name "update/rejected") <;>
      simp [SubscribeForThingShadowChanges, h1, h2]
  · cases h1 : t.subscribeResult (pathJoin ["$aws/things", name, topic]) <;>
      simp [SubscribeForCustomTopic, customTopic, h1]
  · simp [UnsubscribeFromCustomTopic]
  · cases h1 : t.subscribeResult (pathJoin ["$aws/things", name, topic]) <;>
      simp [SubscribeForCustomTopic, customTopic, h1, mkShadowChan]

end AwsIot

namespace Credentials

/-- C8 counterexample: on HTTP 200 with a body the decoder rejects, the
error GetCredentials returns carries only the decode error, not the
response body: the undecodable body is absent from the error text. -/
theorem getCredentials_decodeFailure_errorLacksBody :
    GetCredentials none (Except.ok ⟨200, ['\x7b']⟩) none
        (Except.error "unexpected end of JSON input")
      = Except.error
          "failed to parse credentials response body: unexpected end of JSON input"
    ∧ '\x7b' ∉
        ("failed to parse credentials response body: unexpected end of JSON input").data :=
  ⟨rfl, by decide⟩

/-- C8 amended: GetCredentials issues a GET request to the configured URL
with the `x-amzn-iot-thingname` header set to the thing name, over a
client presenting the device certificate (mutual TLS) with a 10-second
timeout; it returns the decoded credentials on HTTP 200 with a
well-formed body, returns a hard error carrying the status code and the
response body on any non-200 status, and returns a hard error carrying
the decode error (not the response body) on a body-decode failure. -/
theorem getCredentials_contract (s : Service) (status : Nat)
    (body : List Char) (out : Output) (derr : String)
    (hs : status ≠ 200) :
    credentialsRequest s = ⟨"GET", s.url, [("x-amzn-iot-thingname", s.thingName)]⟩
    ∧ credentialsClient s = ⟨[s.tlsCertId], 10⟩
    ∧ GetCredentials none (Except.ok ⟨200, body⟩) none (Except.ok out) =
        Except.ok out
    ∧ GetCredentials none (Except.ok ⟨status, body⟩) none
        (Except.error derr) =
        Except.error ("the request has failed with the status code: "
          ++ toString status ++ "; message: " ++ String.mk body)
    ∧ GetCredentials none (Except.ok ⟨200, body⟩) none (Except.error derr) =
        Except.error ("failed to parse credentials response body: " ++ derr) := by
  refine ⟨rfl, rfl, by simp [GetCredentials], ?_, by simp [GetCredentials]⟩
  simp [GetCredentials, hs]

/-- Witness for C8 amended: concrete evaluation at status 403. -/
theorem getCredentials_contract_witness :
    GetCredentials none (Except.ok ⟨403, ['n', 'o']⟩) none
        (Except.error "unused") =
      Except.error ("the request has failed with the status code: "
        ++ toString 403 ++ "; message: " ++ String.mk ['n', 'o']) :=
  (getCredentials_contract ⟨"https://cp.example/role-aliases/r/credentials",
      "w", 0⟩ 403 ['n', 'o'] ⟨"", "", "", ""⟩ "unused"
    (by decide)).2.2.2.1

end Credentials

